import Mathlib

/-
Verification of the dorc-clients Python SDK core
(src/sdk/python/src/dorc_client/{client,config,errors,models,auth}.py and the
newer configuration snapshot in "src (1)/dorc_client/config.py").

The embedding models JSON wire values, the configuration resolver, the
request mapper of `DorcClient.validate`, the retrying transport around
`DorcClient._get` (tenacity: `stop_after_attempt(3)`, `reraise=True`,
retry on transient exceptions or transient response statuses), the error
classifier `DorcClient._raise_for_status`, the lenient pydantic models
(`extra="allow"`), the health probe, and the `wait_for_completion` poll loop.
-/

namespace Dorc

/-- JSON values as exchanged on the wire.  An object is a list of key/value
pairs in insertion order, matching Python dict semantics for the payloads
built by the client (keys are never duplicated by the client). -/
inductive J where
  | null
  | str (s : String)
  | num (n : Int)
  | bool (b : Bool)
  | arr (xs : List J)
  | obj (fields : List (String × J))

/-- Python truthiness (`bool(x)`) for JSON-decoded values: None, "", 0,
False, [] and \x7b\x7d are falsy, everything else truthy. -/
def J.truthy : J → Bool
  | .null => false
  | .str s => !s.data.isEmpty
  | .num n => n != 0
  | .bool b => b
  | .arr xs => !xs.isEmpty
  | .obj fs => !fs.isEmpty

def J.isNull : J → Bool
  | .null => true
  | _ => false

mutual

/-- Python `repr` of a JSON-decoded value (quotes written as \x27; exact for
the strings the claims exercise, which contain no quotes or escapes). -/
def J.pyRepr : J → String
  | .null => "None"
  | .bool b => if b then "True" else "False"
  | .num n => toString n
  | .str s => "\x27" ++ s ++ "\x27"
  | .arr xs => "[" ++ String.intercalate ", " (pyReprList xs) ++ "]"
  | .obj fs => "\x7b" ++ String.intercalate ", " (pyReprObj fs) ++ "\x7d"

def pyReprList : List J → List String
  | [] => []
  | x :: xs => J.pyRepr x :: pyReprList xs

def pyReprObj : List (String × J) → List String
  | [] => []
  | (k, v) :: fs => ("\x27" ++ k ++ "\x27: " ++ J.pyRepr v) :: pyReprObj fs

end

/-- Python `str(x)` on a JSON-decoded value: identity on strings, `repr`
otherwise (matching CPython for the value shapes in scope). -/
def J.pyStr : J → String
  | .str s => s
  | j => j.pyRepr

/-- Python `s.strip()` (strip ASCII whitespace at both ends). -/
def pyStrip (s : String) : String :=
  ⟨((s.data.dropWhile Char.isWhitespace).reverse.dropWhile Char.isWhitespace).reverse⟩

/-- Python `s.rstrip("/")` as used on base URLs. -/
def rstripSlash (s : String) : String :=
  ⟨(s.data.reverse.dropWhile (fun c => c = '/')).reverse⟩

/-- Python `s.upper()` on the ASCII statuses in scope. -/
def pyUpper (s : String) : String := ⟨s.data.map Char.toUpper⟩

/-- Python `a or b` on optional strings: `None` and `""` are falsy. -/
def pyOrOpt (a b : Option String) : Option String :=
  match a with
  | some s => if s.data.isEmpty then b else some s
  | none => b

/-- Python `s or None`: `""` collapses to `None`. -/
def optNonempty (s : String) : Option String :=
  if s.data.isEmpty then none else some s

/-- The exception taxonomy visible to SDK callers.  `DorcErr` is the payload
shared by `DorcError` and its subclass `DorcAuthError`.
Modelled from the spec for the fields absent from the snapshot in
src/sdk/python/src/dorc_client/errors.py (that snapshot predates the
`code`/`request_id` fields which `DorcClient._raise_for_status` passes to the
current error class): it carries a status code, a machine-readable code
token, a human message, an optional request-correlation id and the raw
response text. -/
structure DorcErr where
  status_code : Nat
  code : String
  message : String
  request_id : Option String
  response_text : Option String
deriving DecidableEq, Repr

/-- Exceptions that can escape the client, including the relevant Python
built-ins, httpx transport exceptions and tenacity's RetryError. -/
inductive PyExc where
  | valueError (msg : String)
  | configError (msg : String)
  | dorcHttp (e : DorcErr)
  | dorcAuth (e : DorcErr)
  | httpxTimeout
  | httpxNetError
  | retryError
  | timeoutError (msg : String)
  | decodeError (msg : String)
deriving DecidableEq, Repr

def isValueErrorE {α : Type} : Except PyExc α → Bool
  | .error (.valueError _) => true
  | _ => false

def isConfigErrorE {α : Type} : Except PyExc α → Bool
  | .error (.configError _) => true
  | _ => false

def exceptIsOk {α : Type} : Except PyExc α → Bool
  | .ok _ => true
  | _ => false

/-- Authentication/tenancy mode of the client
(`Literal["mcp", "engine"]` in config.py). -/
inductive Mode where
  | mcp
  | engine
deriving DecidableEq, Repr

/-- `Config` from "src (1)/dorc_client/config.py" (the newer snapshot, whose
field set is a superset of the older src/sdk/python/src/dorc_client/config.py
one: it adds `engine_api_key`). -/
structure Config where
  base_url : String
  mode : Mode := .mcp
  jwt_token : Option String := none
  engine_api_key : Option String := none
  tenant_slug : Option String := none
  api_key : Option String := none
deriving DecidableEq, Repr

/-- Modelled from the spec: the `TENANT_SLUG_REGEX` constant lives in the
current models module, which is absent from the sources (only the older
models snapshot is present).  The spec pins the pattern to lowercase
alphanumerics and hyphens with a bounded length; the bound is taken as 63. -/
def TENANT_SLUG_REGEX : String := "^[a-z0-9-]\x7b1,63\x7d$"

/-- One character admitted by the slug pattern: a lowercase ASCII letter, a
digit, or a hyphen. -/
def slugChar (c : Char) : Bool :=
  (Nat.ble 97 c.toNat && Nat.ble c.toNat 122)
    || (Nat.ble 48 c.toNat && Nat.ble c.toNat 57)
    || (c == '-')

/-- `_TENANT_RE.fullmatch(s)` succeeds: nonempty, at most 63 characters, all
drawn from [a-z0-9-]. -/
def slugOk (s : String) : Bool :=
  !s.data.isEmpty && Nat.ble s.data.length 63 && s.data.all slugChar

def msgMissingBase : String :=
  "Missing base URL. Set DORC_MCP_URL for MCP (recommended) or set DORC_BASE_URL to your dorc-engine URL (example: https://dorc-engine-xxxxx.us-east1.run.app)."

def msgMissingTenant : String :=
  "Missing DORC_TENANT_SLUG for engine-direct mode (tenant is required for direct engine calls)."

def msgInvalidSlug : String :=
  "invalid tenant_slug (must match " ++ TENANT_SLUG_REGEX ++ ")"

/-- `Config.from_env` from "src (1)/dorc_client/config.py": prefer MCP mode
when `DORC_MCP_URL` is set (the JWT is read but its absence does NOT raise
there); otherwise fall back to engine-direct mode, where a missing base URL
or missing tenant slug raises `DorcConfigError`.  The environment is a
partial map from variable names to values (`os.getenv`). -/
def Config.from_env (env : String → Option String) : Except PyExc Config :=
  let mcp_url := rstripSlash (pyStrip ((env "DORC_MCP_URL").getD ""))
  if !mcp_url.data.isEmpty then
    let token :=
      optNonempty (pyStrip ((pyOrOpt (env "DORC_JWT") (env "DORC_TOKEN")).getD ""))
    let engine_api_key := optNonempty (pyStrip ((env "DORC_ENGINE_API_KEY").getD ""))
    .ok { base_url := mcp_url, mode := .mcp, jwt_token := token,
          engine_api_key := engine_api_key }
  else
    match pyOrOpt (env "DORC_BASE_URL") (env "DORC_ENGINE_URL") with
    | none => .error (.configError msgMissingBase)
    | some b =>
      if b.data.isEmpty then .error (.configError msgMissingBase)
      else
        match optNonempty (pyStrip ((env "DORC_TENANT_SLUG").getD "")) with
        | none => .error (.configError msgMissingTenant)
        | some t =>
          .ok { base_url := rstripSlash b, mode := .engine, tenant_slug := some t,
                api_key := optNonempty (pyStrip ((env "DORC_API_KEY").getD "")) }

/-- `DorcClient.for_engine`: strips the slug, checks it against the slug
pattern (raising `ValueError` on failure) and builds an engine-direct
configuration. -/
def for_engine (base_url api_key tenant_slug : String) : Except PyExc Config :=
  let t := pyStrip tenant_slug
  if slugOk t then
    .ok { base_url := rstripSlash base_url, mode := .engine,
          tenant_slug := some t, api_key := some api_key }
  else
    .error (.valueError msgInvalidSlug)

/-- `auth.api_key_headers`: an `X-API-Key` header, or no headers when no key
is configured (`if not api_key: return dict()` also treats `""` as absent). -/
def api_key_headers (api_key : Option String) : List (String × String) :=
  match api_key with
  | some k => if k.data.isEmpty then [] else [("X-API-Key", k)]
  | none => []

/-- Modelled from the spec: `auth.bearer_headers` is absent from the auth
snapshot in the sources.  Per the spec, token mode sends
`Authorization: Bearer <token>`; health checks do not require auth, so a
missing token yields an empty header set rather than an error. -/
def bearer_headers (token : Option String) : List (String × String) :=
  match token with
  | some t => [("Authorization", "Bearer " ++ t)]
  | none => []

/-- `DorcClient._auth_headers`, computed fresh per request.  The token
provider callback is modelled by its result: `none` when no provider was
supplied, `some r` for a provider returning `r`. -/
def auth_headers (cfg : Config) (provider : Option (Option String)) :
    List (String × String) :=
  match cfg.mode with
  | .mcp =>
    let fromProvider := match provider with
      | some r => r
      | none => none
    let token := optNonempty (pyStrip ((pyOrOpt fromProvider cfg.jwt_token).getD ""))
    bearer_headers token
  | .engine => api_key_headers cfg.api_key

/-- One network interaction as seen by the client: a transport-level timeout,
a connection failure, or a completed HTTP response.  `body` models
`resp.json()` (`none` when the body is not valid JSON) and `raw` models
`resp.text`. -/
inductive Outcome where
  | timeout
  | netError
  | resp (status : Nat) (body : Option J) (raw : String)

/-- A completed HTTP response as returned by `_get`. -/
structure Resp where
  status : Nat
  body : Option J
  raw : String

/-- `DorcClient.health`: try `/healthz` then `/health`; return true on the
first 2xx, fall through on a non-2xx response, swallow httpx transport
exceptions, and return false when neither path yielded a 2xx.  Auth headers
are computed per request but never fail, so they cannot affect the result. -/
def health (cfg : Config) (provider : Option (Option String))
    (pathOutcome : String → Outcome) : Bool :=
  let _hdrs := auth_headers cfg provider
  let check (p : String) : Bool :=
    match pathOutcome p with
    | .resp st _ _ => decide (200 ≤ st ∧ st < 300)
    | _ => false
  check "/healthz" || check "/health"

/-- `_is_transient_response`: status in (429, 500, 502, 503, 504). -/
def is_transient_response (status : Nat) : Bool :=
  status == 429 || status == 500 || status == 502 || status == 503 || status == 504

/-- `_is_transient_exc`: httpx.TimeoutException or httpx.NetworkError. -/
def is_transient_exc : PyExc → Bool
  | .httpxTimeout => true
  | .httpxNetError => true
  | _ => false

/-- The error-envelope parse of `_raise_for_status`: defaults
`("HTTP_ERROR", "request failed", None)`, overridden field-by-field when the
body is a JSON object whose `error` member is an object, with Python
falsiness deciding the `or`-fallbacks (`str(err.get("code") or code)` etc.;
`request_id` is kept only when truthy). -/
def envelopeFields (body : Option J) : String × String × Option String :=
  let fromErr (err : List (String × J)) : String × String × Option String :=
    ( (match err.lookup "code" with
       | some v => if v.truthy then v.pyStr else "HTTP_ERROR"
       | none => "HTTP_ERROR"),
      (match err.lookup "message" with
       | some v => if v.truthy then v.pyStr else "request failed"
       | none => "request failed"),
      (match err.lookup "request_id" with
       | some v => if v.truthy then some v.pyStr else none
       | none => none) )
  match body with
  | some (.obj fs) =>
    match fs.lookup "error" with
    | some (.obj err) => fromErr err
    | _ => ("HTTP_ERROR", "request failed", none)
  | _ => ("HTTP_ERROR", "request failed", none)

/-- The exception `_raise_for_status` raises for a non-2xx response:
`DorcAuthError` for 401/403, `DorcError` otherwise, both carrying the
envelope fields and the raw response text. -/
def classifyError (status : Nat) (body : Option J) (raw : String) : PyExc :=
  let f := envelopeFields body
  let e : DorcErr :=
    { status_code := status, code := f.1, message := f.2.1,
      request_id := f.2.2, response_text := some raw }
  if status = 401 ∨ status = 403 then .dorcAuth e else .dorcHttp e

/-- `DorcClient._raise_for_status`: nothing on 2xx, a classified exception
otherwise. -/
def raise_for_status (status : Nat) (body : Option J) (raw : String) :
    Option PyExc :=
  if 200 ≤ status ∧ status < 300 then none
  else some (classifyError status body raw)

/-- One attempt of the `_get` body: transport exceptions propagate; a
transient-status response is RETURNED (so the tenacity result predicate can
retry it); any other response goes through `_raise_for_status` and is
returned when 2xx. -/
def getOnce : Outcome → Except PyExc Resp
  | .timeout => .error .httpxTimeout
  | .netError => .error .httpxNetError
  | .resp st b raw =>
    if is_transient_response st then .ok ⟨st, b, raw⟩
    else
      match raise_for_status st b raw with
      | some e => .error e
      | none => .ok ⟨st, b, raw⟩

/-- The tenacity retry predicate of `_retry_get`:
`retry_if_exception(_is_transient_exc) | retry_if_result(_is_transient_response)`. -/
def retryable : Except PyExc Resp → Bool
  | .error e => is_transient_exc e
  | .ok r => is_transient_response r.status

/-- Give-up behaviour of tenacity with `reraise=True` once
`stop_after_attempt` fires: a last attempt that RAISED has its exception
re-raised unchanged, but a last attempt that RETURNED a (retry-triggering)
result makes tenacity raise its own `RetryError`. -/
def giveUp : Except PyExc Resp → Except PyExc Resp
  | .error e => .error e
  | .ok _ => .error .retryError

/-- The tenacity loop around `_get`: `fuel` is the number of attempts still
allowed, `i` the index of the next attempt; the server behaviour `srv` gives
the outcome of attempt `i`.  Returns the final result and the total number of
HTTP attempts made. -/
def retryGet (srv : Nat → Outcome) : Nat → Nat → Except PyExc Resp × Nat
  | 0, i => (.error .retryError, i)
  | 1, i =>
    let r := getOnce (srv i)
    (if retryable r then giveUp r else r, i + 1)
  | fuel + 2, i =>
    let r := getOnce (srv i)
    if retryable r then retryGet srv (fuel + 1) (i + 1) else (r, i + 1)

/-- `DorcClient._get` with its `@_retry_get()` decoration:
`stop_after_attempt(3)`. -/
def dorcGet (srv : Nat → Outcome) : Except PyExc Resp × Nat :=
  retryGet srv 3 0

/-- `models.ValidateOptions` (pydantic, `extra="allow"`): the declared fields
with their defaults, plus the open overflow mapping holding every unknown
key/value pair, preserved losslessly. -/
structure ValidateOptions where
  mode : String := "audit"
  chunk_size_chars : Int := 8000
  overlap_chars : Int := 400
  resume : Bool := true
  extra : List (String × J) := []

def ValidateOptions.knownKeys : List String :=
  ["mode", "chunk_size_chars", "overlap_chars", "resume"]

/-- `model_dump(exclude_none=True)` of a ValidateOptions: declared fields in
declaration order, then the extras with `None`-valued entries dropped. -/
def ValidateOptions.dump (o : ValidateOptions) : List (String × J) :=
  [("mode", J.str o.mode), ("chunk_size_chars", J.num o.chunk_size_chars),
   ("overlap_chars", J.num o.overlap_chars), ("resume", J.bool o.resume)]
    ++ o.extra.filter (fun kv => !kv.2.isNull)

/-- Pydantic validation of a ValidateOptions from a JSON object
(`ValidateOptions(**options)` / `model_validate`): declared fields must match
their annotations (`mode` is `Literal["audit"]`), missing fields take their
defaults, and every unknown key is kept in the overflow mapping. -/
def ValidateOptions.model_validate (fs : List (String × J)) :
    Except PyExc ValidateOptions := do
  let mode ← match fs.lookup "mode" with
    | none => Except.ok "audit"
    | some (.str s) =>
      if s = "audit" then Except.ok s else Except.error (.decodeError "mode")
    | some _ => Except.error (.decodeError "mode")
  let csc ← match fs.lookup "chunk_size_chars" with
    | none => Except.ok (8000 : Int)
    | some (.num n) => Except.ok n
    | some _ => Except.error (.decodeError "chunk_size_chars")
  let oc ← match fs.lookup "overlap_chars" with
    | none => Except.ok (400 : Int)
    | some (.num n) => Except.ok n
    | some _ => Except.error (.decodeError "overlap_chars")
  let rs ← match fs.lookup "resume" with
    | none => Except.ok true
    | some (.bool b) => Except.ok b
    | some _ => Except.error (.decodeError "resume")
  Except.ok { mode := mode, chunk_size_chars := csc, overlap_chars := oc,
              resume := rs,
              extra := fs.filter (fun kv => !(ValidateOptions.knownKeys.contains kv.1)) }

/-- Modelled from the spec: the current models module with the nested
`Candidate` model is absent from the sources (only the older flat-schema
snapshot is present).  Its `model_dump(exclude_none=True)`, with fields in
the order of the constructor call in `DorcClient.validate`
(`content`, `content_type`, `title`, `labels`, `cce_id`), dropping the
`None`-valued optional fields. -/
def candidateDump (content ctype : String) (title : Option String)
    (labels : Option (List (String × String))) (cce : Option String) :
    List (String × J) :=
  [("content", J.str content), ("content_type", J.str ctype)]
    ++ (match title with
        | some t => [("title", J.str t)]
        | none => [])
    ++ (match labels with
        | some m => [("labels", J.obj (m.map fun kv => (kv.1, J.str kv.2)))]
        | none => [])
    ++ (match cce with
        | some c => [("cce_id", J.str c)]
        | none => [])

def optStrField (k : String) (v : Option String) : List (String × J) :=
  match v with
  | some s => [(k, J.str s)]
  | none => []

/-- The keyword arguments of `DorcClient.validate`, defaults as in the
source.  `context` is a Python dict whose keys may be arbitrary values, so
keys are JSON values here. -/
structure VArgs where
  candidate_content : Option String := none
  content_type : String := "text/markdown"
  mode : String := "audit"
  title : Option String := none
  metadata : Option (List (String × String)) := none
  options : Option (List (String × J)) := none
  request_id : Option String := none
  content : Option String := none
  candidate_text : Option String := none
  candidate_id : Option String := none
  candidate_title : Option String := none
  context : Option (List (J × J)) := none

/-- The legacy `context` coercion in `DorcClient.validate`:
`dict((k, str(v)) for k, v in context.items() if isinstance(k, str))` —
string keys survive with string-coerced values, non-string keys are dropped
silently. -/
def coerceContext (ctx : List (J × J)) : List (String × String) :=
  ctx.filterMap fun kv =>
    match kv.1 with
    | .str k => some (k, kv.2.pyStr)
    | _ => none

/-- The legacy-adapter trigger of `DorcClient.validate`: the `DeprecationWarning`
is emitted exactly when no new-style content was given and some legacy
content argument was (`candidate_content is None and (content is not None or
candidate_text is not None)`).  It is a non-fatal diagnostic, independent of
whether the call later succeeds. -/
def validateWarned (a : VArgs) : Bool :=
  a.candidate_content.isNone && (a.content.isSome || a.candidate_text.isSome)

/-- The request mapper of `DorcClient.validate`, up to (and including) the
tenancy-injection step: produces the wire payload of the POST body, or the
local exception raised before any request is issued.  Follows the source
line by line: legacy adapter, empty-content check,
`ValidateOptions(**(options or dict()))`, `req.model_dump(exclude_none=True)`,
then engine-direct tenancy injection with the call-time slug re-check. -/
def buildValidatePayload (cfg : Config) (a : VArgs) :
    Except PyExc (List (String × J)) :=
  let legacy := validateWarned a
  let cc := if legacy then pyOrOpt a.content a.candidate_text else a.candidate_content
  let title := if legacy then pyOrOpt a.title a.candidate_title else a.title
  let metadata :=
    if legacy then
      match a.metadata, a.context with
      | none, some ctx => some (coerceContext ctx)
      | m, _ => m
    else a.metadata
  match cc with
  | none => .error (.valueError "validate() requires candidate_content=... (non-empty)")
  | some c =>
    if (pyStrip c).data.isEmpty then
      .error (.valueError "validate() requires candidate_content=... (non-empty)")
    else
      match ValidateOptions.model_validate (a.options.getD []) with
      | .error e => .error e
      | .ok opts =>
        let payload :=
          optStrField "request_id" a.request_id
            ++ [("mode", J.str a.mode),
                ("candidate",
                 J.obj (candidateDump c a.content_type title metadata a.candidate_id)),
                ("options", J.obj opts.dump)]
        match cfg.mode with
        | .engine =>
          let tenant := pyStrip (cfg.tenant_slug.getD "")
          if tenant.data.isEmpty then
            .error (.valueError "tenant_slug is required for engine-direct client")
          else if !slugOk tenant then
            .error (.valueError msgInvalidSlug)
          else
            .ok (payload ++ [("tenant_slug", J.str tenant),
                             ("actor", J.obj [("subject", J.str "sdk")])])
        | .mcp => .ok payload

/-- One un-retried POST, as issued by `DorcClient.validate` to
`/v1/validate`: transport exceptions propagate, `_raise_for_status` is
applied to the response. -/
def postOnce : Outcome → Except PyExc Resp
  | .timeout => .error .httpxTimeout
  | .netError => .error .httpxNetError
  | .resp st b raw =>
    match raise_for_status st b raw with
    | some e => .error e
    | none => .ok ⟨st, b, raw⟩

/-- `DorcClient.validate` up to the transport: when the payload build fails
locally no request is issued (0 attempts); otherwise exactly one POST is
issued (no retry decoration) and its outcome — success, transport exception
or classified HTTP error — is the caller-visible result. -/
def validateRun (cfg : Config) (a : VArgs) (srv : Nat → Outcome) :
    Except PyExc Resp × Nat :=
  match buildValidatePayload cfg a with
  | .error e => (.error e, 0)
  | .ok _ => (postOnce (srv 0), 1)

def decodeStrField (fs : List (String × J)) (k : String) : Except PyExc String :=
  match fs.lookup k with
  | some (.str s) => .ok s
  | _ => .error (.decodeError k)

def decodeObjField (fs : List (String × J)) (k : String) :
    Except PyExc (List (String × J)) :=
  match fs.lookup k with
  | none => .ok []
  | some (.obj ms) => .ok ms
  | some _ => .error (.decodeError k)

def decodeIntField (fs : List (String × J)) (k : String) (dflt : Int) :
    Except PyExc Int :=
  match fs.lookup k with
  | none => .ok dflt
  | some (.num n) => .ok n
  | some _ => .error (.decodeError k)

/-- `models.ContentSummary` (`extra="allow"`): four counts defaulting to 0,
with the reserved-word collision handled by the wire alias `pass` for the
field addressed as `pass_` in code. -/
structure ContentSummary where
  pass_ : Int := 0
  fail : Int := 0
  warn : Int := 0
  error : Int := 0
  extra : List (String × J) := []

def ContentSummary.knownKeys : List String := ["pass", "fail", "warn", "error"]

def ContentSummary.model_validate (fs : List (String × J)) :
    Except PyExc ContentSummary := do
  let p ← decodeIntField fs "pass" 0
  let f ← decodeIntField fs "fail" 0
  let w ← decodeIntField fs "warn" 0
  let e ← decodeIntField fs "error" 0
  Except.ok { pass_ := p, fail := f, warn := w, error := e,
              extra := fs.filter (fun kv => !(ContentSummary.knownKeys.contains kv.1)) }

/-- `models.RunStateResponse` (`extra="allow"`).  Modelled from the spec for
`pipeline_status`: the current models module is absent from the sources; the
spec enumerates `COMPLETE`, `ERROR` and the implicit `RUNNING` seen while
polling, so the status is kept as the decoded string. -/
structure RunStateResponse where
  run_id : String
  tenant_slug : String
  pipeline_status : String
  content_summary : ContentSummary
  inserted_at : String
  meta : List (String × J) := []
  extra : List (String × J) := []

def RunStateResponse.knownKeys : List String :=
  ["run_id", "tenant_slug", "pipeline_status", "content_summary", "inserted_at", "meta"]

def RunStateResponse.model_validate (fs : List (String × J)) :
    Except PyExc RunStateResponse := do
  let rid ← decodeStrField fs "run_id"
  let ts ← decodeStrField fs "tenant_slug"
  let ps ← decodeStrField fs "pipeline_status"
  let cs ← match fs.lookup "content_summary" with
    | some (.obj cfs) => ContentSummary.model_validate cfs
    | _ => Except.error (.decodeError "content_summary")
  let ia ← decodeStrField fs "inserted_at"
  let meta ← decodeObjField fs "meta"
  Except.ok { run_id := rid, tenant_slug := ts, pipeline_status := ps,
              content_summary := cs, inserted_at := ia, meta := meta,
              extra := fs.filter (fun kv => !(RunStateResponse.knownKeys.contains kv.1)) }

/-- `models.ChunkResult` (`extra="allow"`); the `evidence` and `details`
members are kept as raw JSON here since no claim inspects inside them. -/
structure ChunkResult where
  chunk_id : String
  index : Int
  status : String
  model_used : Option String := none
  finding_count : Int := 0
  message : String := ""
  evidence : List J := []
  details : Option J := none
  extra : List (String × J) := []

def ChunkResult.knownKeys : List String :=
  ["chunk_id", "index", "status", "model_used", "finding_count", "message",
   "evidence", "details"]

def ChunkResult.model_validate (fs : List (String × J)) :
    Except PyExc ChunkResult := do
  let cid ← decodeStrField fs "chunk_id"
  let idx ← match fs.lookup "index" with
    | some (.num n) => Except.ok n
    | _ => Except.error (.decodeError "index")
  let st ← decodeStrField fs "status"
  let mu ← match fs.lookup "model_used" with
    | none => Except.ok (none : Option String)
    | some .null => Except.ok (none : Option String)
    | some (.str s) => Except.ok (some s)
    | some _ => Except.error (.decodeError "model_used")
  let fc ← decodeIntField fs "finding_count" 0
  let msg ← match fs.lookup "message" with
    | none => Except.ok ""
    | some (.str s) => Except.ok s
    | some _ => Except.error (.decodeError "message")
  let ev ← match fs.lookup "evidence" with
    | none => Except.ok ([] : List J)
    | some (.arr xs) => Except.ok xs
    | some _ => Except.error (.decodeError "evidence")
  let det ← match fs.lookup "details" with
    | none => Except.ok (none : Option J)
    | some .null => Except.ok (none : Option J)
    | some d => Except.ok (some d)
  Except.ok { chunk_id := cid, index := idx, status := st, model_used := mu,
              finding_count := fc, message := msg, evidence := ev, details := det,
              extra := fs.filter (fun kv => !(ChunkResult.knownKeys.contains kv.1)) }

def decodeChunkList (xs : List J) : Except PyExc (List ChunkResult) :=
  xs.mapM fun x =>
    match x with
    | .obj fs => ChunkResult.model_validate fs
    | _ => .error (.decodeError "chunks")

/-- `models.ChunkResultsResponse` decoding, reduced to the `chunks` member
returned by `list_chunks`. -/
def ChunkResultsResponse.decodeChunks (fs : List (String × J)) :
    Except PyExc (List ChunkResult) := do
  let _rid ← decodeStrField fs "run_id"
  let _ts ← decodeStrField fs "tenant_slug"
  match fs.lookup "chunks" with
  | some (.arr xs) => decodeChunkList xs
  | _ => Except.error (.decodeError "chunks")

/-- `DorcClient.get_run`: the retried GET of `/v1/runs/run_id` followed by
`RunStateResponse.model_validate(resp.json())`; paired with the number of
HTTP attempts made. -/
def get_run (srv : Nat → Outcome) : Except PyExc RunStateResponse × Nat :=
  let r := dorcGet srv
  ( match r.1 with
    | .error e => .error e
    | .ok resp =>
      match resp.body with
      | some (.obj fs) => RunStateResponse.model_validate fs
      | _ => .error (.decodeError "response body is not a JSON object"),
    r.2 )

/-- `DorcClient.list_chunks`: the retried GET of `/v1/runs/run_id/chunks`
followed by chunk decoding; paired with the number of HTTP attempts made. -/
def list_chunks (srv : Nat → Outcome) : Except PyExc (List ChunkResult) × Nat :=
  let r := dorcGet srv
  ( match r.1 with
    | .error e => .error e
    | .ok resp =>
      match resp.body with
      | some (.obj fs) => ChunkResultsResponse.decodeChunks fs
      | _ => .error (.decodeError "response body is not a JSON object"),
    r.2 )

/-- The loop body of `DorcClient.wait_for_completion`.  `statuses i` is the
`pipeline_status` string of the `i`-th successful poll, `now` the current
clock (time advances by `interval` per sleep; polls are instantaneous in
this model), `deadline` the precomputed `time.time() + timeout_s`.  `fuel`
bounds the recursion; `none` means the fuel ran out before the loop decided.
The loop polls FIRST, returns on any status whose upper-case form differs
from RUNNING, and only then compares the clock against the deadline. -/
def wait_go (statuses : Nat → String) (rid : String) (interval deadline : Int) :
    Nat → Nat → Int → Option (Except PyExc (Nat × String))
  | 0, _, _ => none
  | fuel + 1, i, now =>
    if pyUpper (statuses i) ≠ "RUNNING" then some (.ok (i, statuses i))
    else if deadline ≤ now then
      some (.error (.timeoutError ("timeout waiting for run " ++ rid)))
    else wait_go statuses rid interval deadline fuel (i + 1) (now + interval)

/-- `DorcClient.wait_for_completion(run_id, poll_interval_s, timeout_s)`
started at clock `t0`. -/
def wait_for_completion (statuses : Nat → String) (rid : String)
    (interval timeout t0 : Int) (fuel : Nat) :
    Option (Except PyExc (Nat × String)) :=
  wait_go statuses rid interval (t0 + timeout) fuel 0 t0

theorem lookup_of_forall_ne {β : Type} (k : String) (l : List (String × β))
    (h : ∀ kv ∈ l, (k == kv.1) = false) : l.lookup k = none := by
  induction l with
  | nil => rfl
  | cons kv t ih =>
    obtain ⟨k1, v1⟩ := kv
    have hk : (k == k1) = false := h ⟨k1, v1⟩ (by simp)
    simp only [List.lookup, hk]
    exact ih fun x hx => h x (by simp [hx])

theorem lookup_append_skip {β : Type} (k : String) (l1 l2 : List (String × β))
    (h : ∀ kv ∈ l1, (k == kv.1) = false) :
    (l1 ++ l2).lookup k = l2.lookup k := by
  induction l1 with
  | nil => rfl
  | cons kv t ih =>
    obtain ⟨k1, v1⟩ := kv
    have hk : (k == k1) = false := h ⟨k1, v1⟩ (by simp)
    simp only [List.cons_append, List.lookup, hk]
    exact ih fun x hx => h x (by simp [hx])

theorem classifyError_not_transient (st : Nat) (b : Option J) (raw : String) :
    is_transient_exc (classifyError st b raw) = false := by
  unfold classifyError
  split <;> rfl

theorem retryable_getOnce_resp (st : Nat) (b : Option J) (raw : String)
    (ht : is_transient_response st = false) :
    retryable (getOnce (Outcome.resp st b raw)) = false := by
  simp only [getOnce, ht, Bool.false_eq_true, if_false]
  by_cases h2 : 200 ≤ st ∧ st < 300
  · simp [raise_for_status, h2, retryable, ht]
  · simp [raise_for_status, h2, retryable, classifyError_not_transient]

/-- C1 counterexample: with three consecutive transient 503 responses the
retried read does NOT propagate the transient failure unchanged — tenacity
with `reraise=True` re-raises only a raised exception; a retry-triggering
RESULT (a transient-status response) makes it raise its own `RetryError`,
so the caller sees a wrapped retry-exhaustion error, contradicting the
claim as stated. -/
theorem retry_exhaust_wraps_transient_status :
    dorcGet (fun _ => Outcome.resp 503 none "") = (Except.error PyExc.retryError, 3) :=
  rfl

/-- C1 (amended): for `get_run`/`list_chunks` exactly one HTTP attempt is
made when the first outcome is a response with a non-transient status, and
when every attempt fails transiently at most 3 attempts are made; after the
3rd transient failure a transient network EXCEPTION propagates unchanged,
but a transient HTTP STATUS makes the retry wrapper raise its own
retry-exhaustion error (`giveUp` of the last outcome) instead of the
response. -/
theorem retry_read_attempt_bounds (srv : Nat → Outcome) :
    (∀ st b raw, srv 0 = Outcome.resp st b raw → is_transient_response st = false →
       dorcGet srv = (getOnce (srv 0), 1) ∧ (get_run srv).2 = 1 ∧ (list_chunks srv).2 = 1)
  ∧ ((∀ i, i < 3 → retryable (getOnce (srv i)) = true) →
       dorcGet srv = (giveUp (getOnce (srv 2)), 3)
         ∧ (get_run srv).2 = 3 ∧ (list_chunks srv).2 = 3) := by
  constructor
  · intro st b raw h0 ht
    have hr : retryable (getOnce (srv 0)) = false := by
      rw [h0]; exact retryable_getOnce_resp st b raw ht
    have hmain : dorcGet srv = (getOnce (srv 0), 1) := by
      simp only [dorcGet, retryGet, hr, Bool.false_eq_true, if_false]
    refine ⟨hmain, ?_, ?_⟩
    · have : (get_run srv).2 = (dorcGet srv).2 := rfl
      rw [this, hmain]
    · have : (list_chunks srv).2 = (dorcGet srv).2 := rfl
      rw [this, hmain]
  · intro h
    have hmain : dorcGet srv = (giveUp (getOnce (srv 2)), 3) := by
      simp only [dorcGet, retryGet, h 0 (by omega), h 1 (by omega), h 2 (by omega),
        if_true]
    refine ⟨hmain, ?_, ?_⟩
    · have : (get_run srv).2 = (dorcGet srv).2 := rfl
      rw [this, hmain]
    · have : (list_chunks srv).2 = (dorcGet srv).2 := rfl
      rw [this, hmain]

/-- C1 witness: the amended bounds evaluated at concrete servers — a server
that always times out (the timeout exception is re-raised unchanged after 3
attempts) and a server answering 404 at once (single attempt). -/
theorem retry_read_attempt_bounds_witness :
    dorcGet (fun _ => Outcome.timeout) = (Except.error PyExc.httpxTimeout, 3)
  ∧ dorcGet (fun _ => Outcome.resp 404 none "nf")
      = (getOnce (Outcome.resp 404 none "nf"), 1) := by
  constructor
  · exact ((retry_read_attempt_bounds (fun _ => Outcome.timeout)).2
      (fun i _ => rfl)).1
  · exact ((retry_read_attempt_bounds (fun _ => Outcome.resp 404 none "nf")).1
      404 none "nf" rfl (by decide)).1

/-- C2: `validate` is never retried — whenever the locally built payload is
valid, exactly one POST to `/v1/validate` is issued and its outcome is
returned as-is; in particular a single transient 503 response raises the
classified `DorcError` (status 503) immediately, with no further
attempts. -/
theorem validate_single_post (cfg : Config) (a : VArgs) (srv : Nat → Outcome)
    (h : exceptIsOk (buildValidatePayload cfg a) = true) :
    validateRun cfg a srv = (postOnce (srv 0), 1)
  ∧ ∀ b raw, postOnce (Outcome.resp 503 b raw)
      = Except.error (PyExc.dorcHttp
          { status_code := 503, code := (envelopeFields b).1,
            message := (envelopeFields b).2.1, request_id := (envelopeFields b).2.2,
            response_text := some raw }) := by
  constructor
  · unfold validateRun
    cases hb : buildValidatePayload cfg a with
    | error e => rw [hb] at h; simp [exceptIsOk] at h
    | ok p => rfl
  · intro b raw
    have h2 : ¬(200 ≤ 503 ∧ 503 < 300) := by omega
    have h3 : ¬((503 : Nat) = 401 ∨ (503 : Nat) = 403) := by omega
    simp [postOnce, raise_for_status, h2, classifyError, h3]

/-- C2 witness: a token-mode client posting valid content against a server
answering 503 once — the single POST propagates the 503 as a `DorcError`
immediately. -/
theorem validate_single_post_witness :
    validateRun { base_url := "https://e", mode := Mode.mcp, jwt_token := some "tok" }
      { candidate_content := some "Hello" }
      (fun _ => Outcome.resp 503 none "busy")
      = (Except.error (PyExc.dorcHttp
          { status_code := 503, code := "HTTP_ERROR", message := "request failed",
            request_id := none, response_text := some "busy" }), 1) := by
  have h := validate_single_post
    { base_url := "https://e", mode := Mode.mcp, jwt_token := some "tok" }
    { candidate_content := some "Hello" }
    (fun _ => Outcome.resp 503 none "busy") (by rfl)
  exact h.1.trans (by rw [h.2 none "busy"]; rfl)

theorem attempts_zero_of_payload_error (cfg : Config) (a : VArgs)
    (srv : Nat → Outcome) (h : exceptIsOk (buildValidatePayload cfg a) = false) :
    (validateRun cfg a srv).2 = 0 := by
  unfold validateRun
  cases hb : buildValidatePayload cfg a with
  | error e => rfl
  | ok p => rw [hb] at h; simp [exceptIsOk] at h

/-- C3: tenancy injection in `validate` — in MCP/token mode the emitted
payload carries no `tenant_slug` key; in engine-direct mode with tenant
"acme-co" the payload carries `tenant_slug: "acme-co"` and the fixed actor
marker; and the slug is re-checked against the pattern at call time, an
invalid (or empty) configured slug failing locally with zero HTTP
attempts. -/
theorem validate_tenancy_injection :
    (∀ (cfg : Config) (a : VArgs) (p : List (String × J)), cfg.mode = Mode.mcp →
       buildValidatePayload cfg a = Except.ok p →
       p.lookup "tenant_slug" = none)
  ∧ (∀ (cfg : Config) (a : VArgs) (p : List (String × J)), cfg.mode = Mode.engine →
       cfg.tenant_slug = some "acme-co" →
       buildValidatePayload cfg a = Except.ok p →
       p.lookup "tenant_slug" = some (J.str "acme-co")
         ∧ p.lookup "actor" = some (J.obj [("subject", J.str "sdk")]))
  ∧ (∀ (cfg : Config) (a : VArgs) (srv : Nat → Outcome), cfg.mode = Mode.engine →
       slugOk (pyStrip (cfg.tenant_slug.getD "")) = false →
       exceptIsOk (buildValidatePayload cfg a) = false
         ∧ (validateRun cfg a srv).2 = 0) := by
  refine ⟨?_, ?_, ?_⟩
  · intro cfg a p hm hp
    unfold buildValidatePayload at hp
    rw [hm] at hp
    simp only [reduceCtorEq, if_false] at hp
    split at hp
    · exact absurd hp (by simp)
    · split at hp
      · exact absurd hp (by simp)
      · split at hp
        · exact absurd hp (by simp)
        · injection hp with hp
          subst hp
          cases a.request_id <;> simp [optStrField, List.lookup]
  · intro cfg a p hm hts hp
    unfold buildValidatePayload at hp
    rw [hm, hts] at hp
    have hne : (pyStrip ((some "acme-co" : Option String).getD "")).data.isEmpty = false := rfl
    have hok : slugOk (pyStrip ((some "acme-co" : Option String).getD "")) = true := rfl
    have hco : pyStrip ((some "acme-co" : Option String).getD "") = "acme-co" := rfl
    rw [hco] at hp
    simp only [hne, hok, Bool.not_true, Bool.false_eq_true, if_false, if_true] at hp
    · split at hp
      · exact absurd hp (by simp)
      · split at hp
        · exact absurd hp (by simp)
        · split at hp
          · exact absurd hp (by simp)
          · injection hp with hp
            subst hp
            constructor <;>
              (cases a.request_id <;> simp [optStrField, List.lookup])
  · intro cfg a srv hm hslug
    have hko : exceptIsOk (buildValidatePayload cfg a) = false := by
      cases hb : buildValidatePayload cfg a with
      | error e => rfl
      | ok p =>
        exfalso
        unfold buildValidatePayload at hb
        rw [hm] at hb
        dsimp only at hb
        repeat' split at hb
        all_goals simp_all
    exact ⟨hko, attempts_zero_of_payload_error cfg a srv hko⟩

/-- C3 witness: concrete token-mode and engine-mode clients — the token-mode
payload has no `tenant_slug` key, the engine-mode payload carries
`tenant_slug: "acme-co"` and the actor marker, and an uppercase configured
slug fails at call time with zero HTTP attempts. -/
theorem validate_tenancy_injection_witness :
    ((buildValidatePayload { base_url := "https://m", mode := Mode.mcp, jwt_token := some "t" }
        { candidate_content := some "Hello" }).toOption.getD []).lookup "tenant_slug" = none
  ∧ ((buildValidatePayload
        { base_url := "https://e", mode := Mode.engine, tenant_slug := some "acme-co",
          api_key := some "k" }
        { candidate_content := some "Hello" }).toOption.getD []).lookup "tenant_slug"
      = some (J.str "acme-co")
  ∧ ((buildValidatePayload
        { base_url := "https://e", mode := Mode.engine, tenant_slug := some "acme-co",
          api_key := some "k" }
        { candidate_content := some "Hello" }).toOption.getD []).lookup "actor"
      = some (J.obj [("subject", J.str "sdk")])
  ∧ exceptIsOk (buildValidatePayload
        { base_url := "https://e", mode := Mode.engine, tenant_slug := some "ACME",
          api_key := some "k" }
        { candidate_content := some "Hello" }) = false
  ∧ (validateRun
        { base_url := "https://e", mode := Mode.engine, tenant_slug := some "ACME",
          api_key := some "k" }
        { candidate_content := some "Hello" } (fun _ => Outcome.resp 200 none "")).2 = 0 := by
  refine ⟨?_, ?_, ?_, ?_, ?_⟩
  · exact validate_tenancy_injection.1
      { base_url := "https://m", mode := Mode.mcp, jwt_token := some "t" }
      { candidate_content := some "Hello" } _ rfl (by rfl)
  · exact (validate_tenancy_injection.2.1
      { base_url := "https://e", mode := Mode.engine, tenant_slug := some "acme-co",
        api_key := some "k" }
      { candidate_content := some "Hello" } _ rfl rfl (by rfl)).1
  · exact (validate_tenancy_injection.2.1
      { base_url := "https://e", mode := Mode.engine, tenant_slug := some "acme-co",
        api_key := some "k" }
      { candidate_content := some "Hello" } _ rfl rfl (by rfl)).2
  · exact (validate_tenancy_injection.2.2
      { base_url := "https://e", mode := Mode.engine, tenant_slug := some "ACME",
        api_key := some "k" }
      { candidate_content := some "Hello" } (fun _ => Outcome.resp 200 none "")
      rfl (by decide)).1
  · exact (validate_tenancy_injection.2.2
      { base_url := "https://e", mode := Mode.engine, tenant_slug := some "ACME",
        api_key := some "k" }
      { candidate_content := some "Hello" } (fun _ => Outcome.resp 200 none "")
      rfl (by decide)).2

/-- C4: non-2xx responses surface the structured error envelope —
`get_run` against a 404 carrying
`\x7b"error": \x7b"code": "NOT_FOUND", "message": "run not found"\x7d\x7d`
raises `DorcError` (not `DorcAuthError`) with status 404, code `NOT_FOUND`
and message "run not found" after a single attempt; and any non-2xx,
non-transient, non-auth status without a parsable envelope falls back to
code `HTTP_ERROR`, the generic message, and the raw body as diagnostic
text. -/
theorem error_envelope_surfaced :
    get_run (fun _ => Outcome.resp 404
        (some (J.obj [("error", J.obj [("code", J.str "NOT_FOUND"),
                                       ("message", J.str "run not found")])]))
        "\x7b\"error\": \x7b\"code\": \"NOT_FOUND\", \"message\": \"run not found\"\x7d\x7d")
      = (Except.error (PyExc.dorcHttp
          { status_code := 404, code := "NOT_FOUND", message := "run not found",
            request_id := none,
            response_text := some
              "\x7b\"error\": \x7b\"code\": \"NOT_FOUND\", \"message\": \"run not found\"\x7d\x7d" }),
         1)
  ∧ ∀ st raw, ¬(200 ≤ st ∧ st < 300) → is_transient_response st = false →
      st ≠ 401 → st ≠ 403 →
      get_run (fun _ => Outcome.resp st none raw)
        = (Except.error (PyExc.dorcHttp
            { status_code := st, code := "HTTP_ERROR", message := "request failed",
              request_id := none, response_text := some raw }), 1) := by
  constructor
  · rfl
  · intro st raw h2 ht h401 h403
    have hcls : classifyError st none raw
        = PyExc.dorcHttp
            { status_code := st, code := "HTTP_ERROR", message := "request failed",
              request_id := none, response_text := some raw } := by
      unfold classifyError envelopeFields
      rw [if_neg (by omega)]
    have honce : getOnce (Outcome.resp st none raw)
        = Except.error (PyExc.dorcHttp
            { status_code := st, code := "HTTP_ERROR", message := "request failed",
              request_id := none, response_text := some raw }) := by
      simp only [getOnce, ht, Bool.false_eq_true, if_false, raise_for_status,
        if_neg h2, hcls]
    have hret : retryable (getOnce (Outcome.resp st none raw)) = false := by
      rw [honce]; rfl
    unfold get_run dorcGet retryGet
    dsimp only
    rw [hret]
    simp [honce]

/-- C4 witness: the envelope-free fallback evaluated at a concrete 418
response with body text "oops". -/
theorem error_envelope_surfaced_witness :
    get_run (fun _ => Outcome.resp 418 none "oops")
      = (Except.error (PyExc.dorcHttp
          { status_code := 418, code := "HTTP_ERROR", message := "request failed",
            request_id := none, response_text := some "oops" }), 1) :=
  error_envelope_surfaced.2 418 "oops" (by omega) (by decide) (by decide) (by decide)

/-- C5: with the token-mode base URL set and no token variable,
`Config.from_env` succeeds (no `DorcConfigError`), yielding an MCP-mode
configuration without a token; the per-request auth-header computation
degrades to an empty header set rather than failing, and a health check on
such a client succeeds against a live server — the missing credential is
not enforced at configuration time nor by unauthenticated calls. -/
theorem token_mode_lazy_credential :
    Config.from_env
        (fun k => if k = "DORC_MCP_URL" then some "https://mcp.example.com/" else none)
      = Except.ok { base_url := "https://mcp.example.com", mode := Mode.mcp }
  ∧ auth_headers { base_url := "https://mcp.example.com", mode := Mode.mcp } none = []
  ∧ health { base_url := "https://mcp.example.com", mode := Mode.mcp } none
      (fun p => if p = "/healthz" then Outcome.resp 200 none "" else Outcome.netError)
      = true := by
  refine ⟨rfl, rfl, rfl⟩

/-- C6: the legacy-argument adapter of `validate` — calling with only the
legacy `content=X` produces exactly the wire payload of
`candidate_content=X` while additionally emitting the deprecation signal
(which the new-style call does not); when both are supplied the new-style
argument wins (and no deprecation signal fires); and a legacy `context`
mapping is mapped onto the labels field as a string-coerced mapping whose
non-string keys are dropped silently. -/
theorem legacy_argument_mapping :
    (∀ (cfg : Config) (X : String),
       buildValidatePayload cfg { content := some X }
           = buildValidatePayload cfg { candidate_content := some X }
         ∧ validateWarned { content := some X } = true
         ∧ validateWarned { candidate_content := some X } = false)
  ∧ (∀ (cfg : Config) (X Y : String),
       buildValidatePayload cfg { candidate_content := some X, content := some Y }
           = buildValidatePayload cfg { candidate_content := some X }
         ∧ validateWarned { candidate_content := some X, content := some Y } = false)
  ∧ (∀ (cfg : Config) (X : String) (ctx : List (J × J)),
       buildValidatePayload cfg { content := some X, context := some ctx }
         = buildValidatePayload cfg
             { candidate_content := some X,
               metadata := some (ctx.filterMap (fun kv =>
                 match kv.1 with
                 | J.str k => some (k, J.pyStr kv.2)
                 | _ => none)) }) := by
  have hempty : ∀ X : String, X.data.isEmpty = true → X = "" := by
    intro X hX
    cases X with
    | mk l =>
      cases l with
      | nil => rfl
      | cons c cs => simp at hX
  refine ⟨?_, ?_, ?_⟩
  · intro cfg X
    by_cases hX : X.data.isEmpty = true
    · rw [hempty X hX]
      exact ⟨rfl, rfl, rfl⟩
    · refine ⟨?_, rfl, rfl⟩
      simp [buildValidatePayload, validateWarned, pyOrOpt, hX]
  · intro cfg X Y
    exact ⟨rfl, rfl⟩
  · intro cfg X ctx
    by_cases hX : X.data.isEmpty = true
    · rw [hempty X hX]
      rfl
    · simp [buildValidatePayload, validateWarned, pyOrOpt, coerceContext, hX]

theorem slugOk_false_of_bad (t : String)
    (h : (∃ c ∈ t.data, 65 ≤ c.toNat ∧ c.toNat ≤ 90)
       ∨ ' ' ∈ t.data ∨ 63 < t.data.length) :
    slugOk t = false := by
  rcases h with ⟨c, hc, h65, h90⟩ | hsp | hlen
  · have hchar : slugChar c = false := by
      have h1 : Nat.ble 97 c.toNat = false := by
        cases hb : Nat.ble 97 c.toNat with
        | false => rfl
        | true => exact absurd (Nat.le_of_ble_eq_true hb) (by omega)
      have h2 : Nat.ble c.toNat 57 = false := by
        cases hb : Nat.ble c.toNat 57 with
        | false => rfl
        | true => exact absurd (Nat.le_of_ble_eq_true hb) (by omega)
      have h3 : (c == '-') = false := by
        cases hb : c == '-' with
        | false => rfl
        | true =>
          have hcd : c = '-' := eq_of_beq hb
          subst hcd
          exact absurd h65 (by decide)
      unfold slugChar
      rw [h1, h2, h3]
      simp
    have hall : t.data.all slugChar = false := by
      cases hb : t.data.all slugChar with
      | false => rfl
      | true => exact absurd (List.all_eq_true.mp hb c hc) (by simp [hchar])
    simp [slugOk, hall]
  · have hall : t.data.all slugChar = false := by
      cases hb : t.data.all slugChar with
      | false => rfl
      | true => exact absurd (List.all_eq_true.mp hb ' ' hsp) (by decide)
    simp [slugOk, hall]
  · have hble : Nat.ble t.data.length 63 = false := by
      cases hb : Nat.ble t.data.length 63 with
      | false => rfl
      | true => exact absurd (Nat.le_of_ble_eq_true hb) (by omega)
    unfold slugOk
    rw [hble]
    simp

/-- C7 counterexample: the claim fails on the code in both of its parts —
the pattern rejection raises a `ValueError`, NOT a `ConfigError`
(`for_engine` with slug "ACME" yields the value-error, not the
config-error); a slug containing (leading/trailing) spaces is ACCEPTED,
because the slug is stripped before the check; and constructing the
configuration from the environment does not pattern-check the slug at all —
`from_env` succeeds with the pattern-violating slug "UPPER CASE". -/
theorem slug_rejection_not_config_error :
    isConfigErrorE (for_engine "https://engine.example" "key" "ACME") = false
  ∧ isValueErrorE (for_engine "https://engine.example" "key" "ACME") = true
  ∧ exceptIsOk (for_engine "https://engine.example" "key" " acme ") = true
  ∧ exceptIsOk (Config.from_env (fun k =>
      if k = "DORC_BASE_URL" then some "https://engine.example"
      else if k = "DORC_TENANT_SLUG" then some "UPPER CASE" else none)) = true :=
  ⟨rfl, rfl, rfl, rfl⟩

/-- C7 (amended): a tenant slug whose STRIPPED value contains an uppercase
letter or a space, or exceeds the length bound, is rejected — but with a
`ValueError` (a local validation error), not a `ConfigError`, and only by
the `for_engine` factory and by `validate`'s call-time re-check (zero HTTP
attempts are made); `Config.from_env` checks only the slug's presence, not
its pattern. -/
theorem slug_pattern_rejection_value_error (b k s : String)
    (h : (∃ c ∈ (pyStrip s).data, 65 ≤ c.toNat ∧ c.toNat ≤ 90)
       ∨ ' ' ∈ (pyStrip s).data ∨ 63 < (pyStrip s).data.length) :
    for_engine b k s = Except.error (PyExc.valueError msgInvalidSlug)
  ∧ ∀ (srv : Nat → Outcome),
      validateRun { base_url := b, mode := Mode.engine, tenant_slug := some s,
                    api_key := some k }
        { candidate_content := some "Hi" } srv
        = (Except.error (PyExc.valueError msgInvalidSlug), 0) := by
  have hslug : slugOk (pyStrip s) = false := slugOk_false_of_bad _ h
  have hne : (pyStrip s).data.isEmpty = false := by
    cases hd : (pyStrip s).data with
    | nil =>
      exfalso
      rcases h with ⟨c, hc, _⟩ | hsp | hlen
      · rw [hd] at hc; simp at hc
      · rw [hd] at hsp; simp at hsp
      · rw [hd] at hlen; simp at hlen
    | cons a l => rfl
  constructor
  · simp [for_engine, hslug]
  · intro srv
    have hbp : buildValidatePayload
        { base_url := b, mode := Mode.engine, tenant_slug := some s, api_key := some k }
        { candidate_content := some "Hi" }
        = Except.error (PyExc.valueError msgInvalidSlug) := by
      unfold buildValidatePayload
      simp only [show pyStrip (((some s : Option String)).getD "") = pyStrip s from rfl,
        hne, hslug]
      rfl
    unfold validateRun
    rw [hbp]

/-- C7 witness: the amended rejection evaluated at the concrete slug
"Bad Slug" (uppercase letter and interior space after stripping). -/
theorem slug_pattern_rejection_value_error_witness :
    for_engine "https://e" "k" "Bad Slug" = Except.error (PyExc.valueError msgInvalidSlug)
  ∧ validateRun
      { base_url := "https://e", mode := Mode.engine, tenant_slug := some "Bad Slug",
        api_key := some "k" }
      { candidate_content := some "Hi" } (fun _ => Outcome.resp 200 none "")
      = (Except.error (PyExc.valueError msgInvalidSlug), 0) := by
  have h := slug_pattern_rejection_value_error "https://e" "k" "Bad Slug" (by decide)
  exact ⟨h.1, h.2 (fun _ => Outcome.resp 200 none "")⟩

theorem filter_id_of_all {α : Type} (p : α → Bool) (l : List α)
    (h : ∀ a ∈ l, p a = true) : l.filter p = l := by
  induction l with
  | nil => rfl
  | cons a t ih =>
    rw [List.filter_cons_of_pos (h a (by simp)), ih fun x hx => h x (by simp [hx])]

/-- C8: open extensibility round-trip — encoding a `ValidateOptions` with
only `resume=false` set and then decoding an object additionally carrying
unknown extra keys preserves every extra key/value pair losslessly in the
decoded object (never rejected, never dropped), and the same holds for the
response models (`RunStateResponse` shown here; all models share the
`extra="allow"` mechanism). -/
theorem extra_fields_round_trip :
    (∀ extras : List (String × J),
       (∀ kv ∈ extras, ValidateOptions.knownKeys.contains kv.1 = false) →
       ValidateOptions.model_validate (ValidateOptions.dump { resume := false } ++ extras)
         = Except.ok { resume := false, extra := extras })
  ∧ (∀ extras : List (String × J),
       (∀ kv ∈ extras, RunStateResponse.knownKeys.contains kv.1 = false) →
       RunStateResponse.model_validate
           ([("run_id", J.str "run-1"), ("tenant_slug", J.str "acme-co"),
             ("pipeline_status", J.str "COMPLETE"), ("content_summary", J.obj []),
             ("inserted_at", J.str "2025-01-01T00:00:00Z")] ++ extras)
         = Except.ok { run_id := "run-1", tenant_slug := "acme-co",
                       pipeline_status := "COMPLETE", content_summary := {},
                       inserted_at := "2025-01-01T00:00:00Z", meta := [],
                       extra := extras }) := by
  constructor
  · intro extras h
    have hfilter : extras.filter
        (fun kv => !(ValidateOptions.knownKeys.contains kv.1)) = extras :=
      filter_id_of_all _ _ (fun kv hkv => by rw [h kv hkv]; rfl)
    have key : ValidateOptions.model_validate
        (ValidateOptions.dump { resume := false } ++ extras)
        = Except.ok
            { resume := false,
              extra := extras.filter
                (fun kv => !(ValidateOptions.knownKeys.contains kv.1)) } := rfl
    rw [key, hfilter]
  · intro extras h
    have hmeta : ∀ kv ∈ extras, ("meta" == kv.1) = false := by
      intro kv hkv
      cases hb : ("meta" == kv.1) with
      | false => rfl
      | true =>
        have hc := h kv hkv
        rw [← eq_of_beq hb] at hc
        exact absurd hc (by decide)
    have hlm : extras.lookup "meta" = none := lookup_of_forall_ne _ _ hmeta
    have hfilter : extras.filter
        (fun kv => !(RunStateResponse.knownKeys.contains kv.1)) = extras :=
      filter_id_of_all _ _ (fun kv hkv => by rw [h kv hkv]; rfl)
    have hmf : decodeObjField
        ([("run_id", J.str "run-1"), ("tenant_slug", J.str "acme-co"),
          ("pipeline_status", J.str "COMPLETE"), ("content_summary", J.obj []),
          ("inserted_at", J.str "2025-01-01T00:00:00Z")] ++ extras) "meta"
        = Except.ok [] := by
      unfold decodeObjField
      rw [lookup_append_skip _ _ _ (by intro kv hkv; fin_cases hkv <;> rfl), hlm]
    have key : RunStateResponse.model_validate
        ([("run_id", J.str "run-1"), ("tenant_slug", J.str "acme-co"),
          ("pipeline_status", J.str "COMPLETE"), ("content_summary", J.obj []),
          ("inserted_at", J.str "2025-01-01T00:00:00Z")] ++ extras)
        = Except.bind
            (decodeObjField
              ([("run_id", J.str "run-1"), ("tenant_slug", J.str "acme-co"),
                ("pipeline_status", J.str "COMPLETE"), ("content_summary", J.obj []),
                ("inserted_at", J.str "2025-01-01T00:00:00Z")] ++ extras) "meta")
            (fun meta => Except.ok
              { run_id := "run-1", tenant_slug := "acme-co",
                pipeline_status := "COMPLETE", content_summary := {},
                inserted_at := "2025-01-01T00:00:00Z", meta := meta,
                extra := extras.filter
                  (fun kv => !(RunStateResponse.knownKeys.contains kv.1)) }) := rfl
    rw [key, hmf]
    simp only [hfilter]
    rfl

/-- C8 witness: the round-trip evaluated with a concrete unknown extra key
on both models. -/
theorem extra_fields_round_trip_witness :
    ValidateOptions.model_validate
        (ValidateOptions.dump { resume := false } ++ [("schema_hint", J.str "v2")])
      = Except.ok { resume := false, extra := [("schema_hint", J.str "v2")] }
  ∧ RunStateResponse.model_validate
        ([("run_id", J.str "run-1"), ("tenant_slug", J.str "acme-co"),
          ("pipeline_status", J.str "COMPLETE"), ("content_summary", J.obj []),
          ("inserted_at", J.str "2025-01-01T00:00:00Z")]
          ++ [("schema_hint", J.str "v2")])
      = Except.ok { run_id := "run-1", tenant_slug := "acme-co",
                    pipeline_status := "COMPLETE", content_summary := {},
                    inserted_at := "2025-01-01T00:00:00Z", meta := [],
                    extra := [("schema_hint", J.str "v2")] } :=
  ⟨extra_fields_round_trip.1 [("schema_hint", J.str "v2")] (by decide),
   extra_fields_round_trip.2 [("schema_hint", J.str "v2")] (by decide)⟩

theorem wait_go_timeout (statuses : Nat → String) (rid : String)
    (interval deadline : Int) (hrun : ∀ i, pyUpper (statuses i) = "RUNNING")
    (hint : 1 ≤ interval) :
    ∀ (fuel i : Nat) (now : Int), (deadline - now).toNat < fuel →
      wait_go statuses rid interval deadline fuel i now
        = some (Except.error (PyExc.timeoutError ("timeout waiting for run " ++ rid))) := by
  intro fuel
  induction fuel with
  | zero => intro i now h; omega
  | succ f ih =>
    intro i now h
    simp only [wait_go]
    rw [if_neg (by simp [hrun i])]
    by_cases hd : deadline ≤ now
    · rw [if_pos hd]
    · rw [if_neg hd]
      exact ih (i + 1) (now + interval) (by omega)

theorem wait_go_returns (statuses : Nat → String) (rid : String)
    (interval deadline : Int) :
    ∀ (k fuel i : Nat) (now : Int),
      (∀ d, d < k → pyUpper (statuses (i + d)) = "RUNNING") →
      pyUpper (statuses (i + k)) ≠ "RUNNING" →
      (∀ d, d < k → now + (d : Int) * interval < deadline) →
      k < fuel →
      wait_go statuses rid interval deadline fuel i now
        = some (Except.ok (i + k, statuses (i + k))) := by
  intro k
  induction k with
  | zero =>
    intro fuel i now _ hstop _ hf
    cases fuel with
    | zero => omega
    | succ f =>
      simp only [wait_go]
      rw [if_pos (by simpa using hstop)]
      simp
  | succ kk ih =>
    intro fuel i now hrun hstop htime hf
    cases fuel with
    | zero => omega
    | succ f =>
      simp only [wait_go]
      rw [if_neg (by simpa using hrun 0 (by omega))]
      rw [if_neg (by have := htime 0 (by omega); simp at this; omega)]
      have hidx : i + 1 + kk = i + (kk + 1) := by omega
      have := ih f (i + 1) (now + interval)
        (by
          intro d hd
          have h2 := hrun (d + 1) (by omega)
          have : i + 1 + d = i + (d + 1) := by omega
          rw [this]
          exact h2)
        (by rw [hidx]; exact hstop)
        (by
          intro d hd
          have h2 := htime (d + 1) (by omega)
          push_cast at h2
          rw [add_mul, one_mul] at h2
          linarith)
        (by omega)
      rw [this, hidx]

/-- C9: `wait_for_completion` — against a server that always reports
pipeline status RUNNING, a `TimeoutError` whose message references the run
identifier is raised once the deadline elapses (any positive poll interval,
any start clock, enough loop fuel); and when the polls report RUNNING up to
poll `k` and a non-RUNNING status at poll `k` before the deadline, that run
state is returned instead. -/
theorem wait_for_completion_timeout :
    (∀ (statuses : Nat → String) (rid : String) (interval timeout t0 : Int)
       (fuel : Nat),
       (∀ i, pyUpper (statuses i) = "RUNNING") → 1 ≤ interval →
       timeout.toNat < fuel →
       wait_for_completion statuses rid interval timeout t0 fuel
         = some (Except.error
             (PyExc.timeoutError ("timeout waiting for run " ++ rid))))
  ∧ (∀ (statuses : Nat → String) (rid : String) (interval timeout t0 : Int)
       (fuel k : Nat),
       (∀ i, i < k → pyUpper (statuses i) = "RUNNING") →
       pyUpper (statuses k) ≠ "RUNNING" →
       (∀ j : Nat, j < k → t0 + (j : Int) * interval < t0 + timeout) →
       k < fuel →
       wait_for_completion statuses rid interval timeout t0 fuel
         = some (Except.ok (k, statuses k))) := by
  constructor
  · intro statuses rid interval timeout t0 fuel hrun hint hfuel
    exact wait_go_timeout statuses rid interval (t0 + timeout) hrun hint fuel 0 t0
      (by omega)
  · intro statuses rid interval timeout t0 fuel k hrun hstop htime hf
    have := wait_go_returns statuses rid interval (t0 + timeout) k fuel 0 t0
      (by intro d hd; simpa using hrun d hd)
      (by simpa using hstop)
      (by intro d hd; simpa using htime d hd)
      hf
    simpa using this

/-- C9 witness: the loop evaluated concretely — an always-RUNNING server
times out with the run id in the message, and a server turning COMPLETE on
the third poll returns that state. -/
theorem wait_for_completion_timeout_witness :
    wait_for_completion (fun _ => "RUNNING") "run-1" 1 3 0 5
      = some (Except.error (PyExc.timeoutError "timeout waiting for run run-1"))
  ∧ wait_for_completion (fun i => if i < 2 then "RUNNING" else "COMPLETE") "run-9" 1 10 0 5
      = some (Except.ok (2, "COMPLETE")) := by
  constructor
  · exact wait_for_completion_timeout.1 (fun _ => "RUNNING") "run-1" 1 3 0 5
      (fun i => rfl) (by omega) (by decide)
  · exact wait_for_completion_timeout.2 (fun i => if i < 2 then "RUNNING" else "COMPLETE")
      "run-9" 1 10 0 5 2 (by decide) (by decide) (by intro j hj; interval_cases j <;> decide)
      (by omega)

/-- C10: the first poll of `wait_for_completion` — at least one `get_run`
poll is issued even when the timeout is zero or negative: a first poll whose
status differs (case-insensitively, after string conversion) from RUNNING
returns that run state immediately, regardless of the deadline; and the
deadline is consulted only after a poll that reported RUNNING, so with a
non-positive timeout and a RUNNING first poll the loop times out right after
that first poll. -/
theorem wait_first_poll_behavior :
    (∀ (statuses : Nat → String) (rid : String) (interval timeout t0 : Int)
       (fuel : Nat), 0 < fuel → pyUpper (statuses 0) ≠ "RUNNING" →
       wait_for_completion statuses rid interval timeout t0 fuel
         = some (Except.ok (0, statuses 0)))
  ∧ (∀ (statuses : Nat → String) (rid : String) (interval timeout t0 : Int)
       (fuel : Nat), 0 < fuel → pyUpper (statuses 0) = "RUNNING" → timeout ≤ 0 →
       wait_for_completion statuses rid interval timeout t0 fuel
         = some (Except.error
             (PyExc.timeoutError ("timeout waiting for run " ++ rid)))) := by
  constructor
  · intro statuses rid interval timeout t0 fuel hfuel hstop
    cases fuel with
    | zero => omega
    | succ f =>
      unfold wait_for_completion
      simp only [wait_go]
      rw [if_pos hstop]
  · intro statuses rid interval timeout t0 fuel hfuel hrun htmo
    cases fuel with
    | zero => omega
    | succ f =>
      unfold wait_for_completion
      simp only [wait_go]
      rw [if_neg (by simp [hrun]), if_pos (by omega)]

/-- C10 witness: with a zero timeout, a COMPLETE first poll is returned and
a RUNNING first poll raises the timeout, in both cases after exactly the one
poll. -/
theorem wait_first_poll_behavior_witness :
    wait_for_completion (fun _ => "complete") "run-2" 1 0 100 4
      = some (Except.ok (0, "complete"))
  ∧ wait_for_completion (fun _ => "RUNNING") "run-3" 1 (-5) 100 4
      = some (Except.error (PyExc.timeoutError "timeout waiting for run run-3")) := by
  constructor
  · exact wait_first_poll_behavior.1 (fun _ => "complete") "run-2" 1 0 100 4
      (by omega) (by decide)
  · exact wait_first_poll_behavior.2 (fun _ => "RUNNING") "run-3" 1 (-5) 100 4
      (by omega) rfl (by omega)

end Dorc
